import Mathlib

/-!
Verification development for the farm WebSocket relay server
(repository henry-94/finale_ferme). The repository holds four revisions of
the same relay. The file serveur_fin.js contains two of them:

* variant A (serveur_fin.js, lines 1-308): unbounded queues
  (pendingAlerts, espCamCommandsQueue, espStandardCommandsQueue), a 10 s
  registration timeout closing with code 1008, and a per-alert
  cross-wiring rule sending turn_on_light to the members of the other
  device role;
* variant B (serveur_fin.js, lines 309-583): queues bounded by
  MAX_QUEUE_SIZE = 50 with a drop-new policy, no registration timeout,
  and re-registration support (old bucket entries removed on register).

The files of unknown name are modelled as P0 (part_000: singleton client
slots, 30 s timeout), P1 (part_001: no timeout, no command queues) and
P2 (part_002: singleton ESP slots, bounded photo queue, no command
queues).

Each model is a shallow embedding: connection sockets are records
carrying the unique clientId and the readyState (isOpen); the effect of
one handler invocation is a pure function from the server state to the
new state plus the list of frames written to the transport.
-/

namespace Ferme

/-- Connections are identified by the uuid generated at accept time; we
model the id as a natural number.  -/
abbrev ClientId := Nat

/-- A connection endpoint as the handlers see it: its id and whether its
readyState is OPEN. -/
structure Socket where
  id : ClientId
  isOpen : Bool
  deriving Repr, DecidableEq

/-- One frame written to the transport. JSON envelopes are represented
by their type tag and a body string; command_response envelopes get a
dedicated constructor so that the success flag is observable; closeConn
records a close call with its numeric code and reason. -/
inductive Out where
  | json (dst : ClientId) (ty : String) (body : String)
  | binary (dst : ClientId) (data : String)
  | cmdResponse (dst : ClientId) (success : Bool) (message : String)
  | closeConn (dst : ClientId) (code : Nat) (reason : String)
  deriving Repr, DecidableEq

/-- sendJsonMessage: writes the envelope only when the socket is OPEN;
the boolean result of the source function is recovered as s.isOpen. -/
def sendJson (s : Socket) (ty body : String) : List Out :=
  if s.isOpen then [Out.json s.id ty body] else []

/-- A queued command, as stored in the espCam/espStandard command
queues: the type string and the params object (kept abstract as the
string the controller sent). -/
structure Cmd where
  ty : String
  params : String
  deriving Repr, DecidableEq

/-- Body of the esp_status envelope sent on registration. -/
def statusBody (cam std : Bool) : String :=
  "espCam=" ++ toString cam ++ ",espStandard=" ++ toString std

/-- Response message built by distributeCommand in both serveur_fin
variants: OK when at least one live device accepted the write, Queue
otherwise. -/
def respMessage (ty : String) (cam std : Bool) : String :=
  ty ++ " envoyé. CAM: " ++ (if cam then "OK" else "Queue")
     ++ ", STD: " ++ (if std then "OK" else "Queue")

/-- Map.set keyed by clientId: replaces the entry with the same id, or
appends a fresh one. -/
def mapSet (l : List Socket) (s : Socket) : List Socket :=
  if l.any (fun a => a.id == s.id) then
    l.map (fun a => if a.id == s.id then s else a)
  else l ++ [s]

/-- True when every command_response in the list carries success =
true. -/
def allResponsesSuccess (outs : List Out) : Bool :=
  outs.all fun o =>
    match o with
    | Out.cmdResponse _ s _ => s
    | _ => true

/-- Recognizes a turn_on_light command envelope. -/
def isTurnOnLight : Out → Bool
  | Out.json _ ty _ => ty == "turn_on_light"
  | _ => false

namespace VA

/-- Max age for pending alerts in variant A: one hour, in
milliseconds. -/
def maxAge : Nat := 60 * 60 * 1000

/-- Variant A registration grace period: 10 000 ms. -/
def registrationTimeoutDelay : Nat := 10000

/-- One entry of pendingAlerts: message, optional binary image, and the
Date.now() at which it was stored. -/
structure Alert where
  message : String
  imageData : Option String
  timestamp : Nat
  deriving Repr, DecidableEq

/-- Variant A server state: the three role buckets (androids is a Map
keyed by clientId, the ESP buckets are arrays), the two command queues
and the pending alert queue. -/
structure St where
  androids : List Socket
  espCams : List Socket
  espStandards : List Socket
  espCamCommandsQueue : List Cmd
  espStandardCommandsQueue : List Cmd
  pendingAlerts : List Alert
  deriving Repr, DecidableEq

/-- broadcastAlertToAndroids: when at least one android entry exists,
send the image (when present) then the alert envelope to every OPEN
android; otherwise store the alert in pendingAlerts stamped with
Date.now(). -/
def broadcastAlertToAndroids (st : St) (now : Nat) (message : String)
    (imageData : Option String) : St × List Out :=
  if 0 < st.androids.length then
    (st, st.androids.flatMap fun a =>
      if a.isOpen then
        match imageData with
        | some d => [Out.binary a.id d, Out.json a.id "alert" message]
        | none => [Out.json a.id "alert" message]
      else [])
  else
    ({ st with pendingAlerts := st.pendingAlerts ++ [⟨message, imageData, now⟩] }, [])

/-- retryPendingAlerts. The source calls pendingAlerts.filter(alert =>
now - alert.timestamp <= maxAge) without using the result:
Array.prototype.filter does not mutate, so the age purge announced by
the comment above that line never takes effect; the model keeps the
call as a dead binding. The queue is then copied, emptied, and every
copied alert is re-broadcast. -/
def retryPendingAlerts (st : St) (now : Nat) : St × List Out :=
  if st.pendingAlerts.length = 0 ∨ st.androids.length = 0 then (st, [])
  else
    let _discarded := st.pendingAlerts.filter fun al => now - al.timestamp ≤ maxAge
    let alertsToSend := st.pendingAlerts
    alertsToSend.foldl
      (fun acc al =>
        let r := broadcastAlertToAndroids acc.1 now al.message al.imageData
        (r.1, acc.2 ++ r.2))
      ({ st with pendingAlerts := [] }, [])

/-- broadcastEspStatus: esp_status envelope sent to every OPEN
android. -/
def broadcastEspStatusOuts (st : St) (espType : String) (connected : Bool) : List Out :=
  st.androids.flatMap fun a =>
    if a.isOpen then sendJson a "esp_status" (espType ++ "=" ++ toString connected) else []

/-- distributeCommand, variant A: when a role bucket is non-empty the
command is written to each OPEN member, otherwise it is pushed
(unconditionally, the queue is unbounded) onto the command queue of that role; the android then receives command_response with success true. -/
def distributeCommand (st : St) (ty params : String) (androidSocket : Socket) :
    St × List Out :=
  let camOuts := if 0 < st.espCams.length
    then st.espCams.flatMap (fun e => sendJson e ty params) else []
  let sentToCam := st.espCams.any (fun e => e.isOpen)
  let camQ := if 0 < st.espCams.length then st.espCamCommandsQueue
    else st.espCamCommandsQueue ++ [Cmd.mk ty params]
  let stdOuts := if 0 < st.espStandards.length
    then st.espStandards.flatMap (fun e => sendJson e ty params) else []
  let sentToStd := st.espStandards.any (fun e => e.isOpen)
  let stdQ := if 0 < st.espStandards.length then st.espStandardCommandsQueue
    else st.espStandardCommandsQueue ++ [Cmd.mk ty params]
  let resp := if androidSocket.isOpen
    then [Out.cmdResponse androidSocket.id true (respMessage ty sentToCam sentToStd)]
    else []
  ({ st with espCamCommandsQueue := camQ, espStandardCommandsQueue := stdQ },
   camOuts ++ stdOuts ++ resp)

/-- The alert branch of the message handler (senderType is the
clientType of the ESP that sent the alert): for each member of the
other role, an OPEN member is sent turn_on_light directly and a
non-OPEN member causes a push onto the command queue of the other role; the
alert is then forwarded to the androids. When the other role holds zero
members, the loop body never runs and nothing is queued. -/
def handleAlert (st : St) (now : Nat) (senderType msg : String) : St × List Out :=
  let otherEsps := if senderType = "esp32-cam" then st.espStandards else st.espCams
  let sweep := otherEsps.foldl
    (fun acc e =>
      if e.isOpen then (acc.1, acc.2 ++ [Out.json e.id "turn_on_light" "alert_detected"])
      else (acc.1 ++ [Cmd.mk "turn_on_light" "alert_detected"], acc.2))
    (([] : List Cmd), ([] : List Out))
  let st1 := if senderType = "esp32-cam"
    then { st with espStandardCommandsQueue := st.espStandardCommandsQueue ++ sweep.1 }
    else { st with espCamCommandsQueue := st.espCamCommandsQueue ++ sweep.1 }
  let r := broadcastAlertToAndroids st1 now msg none
  (r.1, sweep.2 ++ r.2)

/-- The binary branch of the message handler, variant A: an image from
an esp32-cam is forwarded to the androids as a fixed alert; no
turn_on_light is produced on this path. -/
def handleBinary (st : St) (now : Nat) (senderType : String) (data : String) :
    St × List Out :=
  if senderType = "esp32-cam" then
    broadcastAlertToAndroids st now "Photo capturée lors d\x27une alerte" (some data)
  else (st, [])

/-- The register branch, variant A. clientType is assigned the declared
device string before any validity check, and nothing guards against a
second registration. The returned Option String is the new clientType
of the connection. -/
def handleRegister (st : St) (now : Nat) (sock : Socket) (device : String) :
    St × Option String × List Out :=
  if device = "android" then
    let st1 := { st with androids := mapSet st.androids sock }
    let o1 := sendJson sock "registered" "Enregistrement réussi"
    let o2 := sendJson sock "esp_status"
      (statusBody (decide (0 < st1.espCams.length)) (decide (0 < st1.espStandards.length)))
    let r := retryPendingAlerts st1 now
    (r.1, some device, o1 ++ o2 ++ r.2)
  else if device = "esp32-cam" then
    let st1 := { st with espCams := st.espCams ++ [sock] }
    let o1 := sendJson sock "registered" "Enregistrement réussi"
    let o2 := broadcastEspStatusOuts st1 "espCam" true
    let o3 := if sock.isOpen
      then st1.espCamCommandsQueue.map (fun c => Out.json sock.id c.ty c.params) else []
    ({ st1 with espCamCommandsQueue := [] }, some device, o1 ++ o2 ++ o3)
  else if device = "esp32-standard" then
    let st1 := { st with espStandards := st.espStandards ++ [sock] }
    let o1 := sendJson sock "registered" "Enregistrement réussi"
    let o2 := broadcastEspStatusOuts st1 "espStandard" true
    let o3 := if sock.isOpen
      then st1.espStandardCommandsQueue.map (fun c => Out.json sock.id c.ty c.params) else []
    ({ st1 with espStandardCommandsQueue := [] }, some device, o1 ++ o2 ++ o3)
  else
    (st, some device,
      sendJson sock "error" ("Type d\x27appareil inconnu: " ++ device)
        ++ [Out.closeConn sock.id 1008 "Type d\x27appareil inconnu"])

/-- The close handler, variant A: the connection is removed from every
collection (the Map by its clientId, the arrays by socket identity;
ids are unique per socket so both are keyed by the id here), then an
esp_status update is broadcast when the leaver was an ESP. -/
def handleClose (st : St) (sock : Socket) (clientType : Option String) :
    St × List Out :=
  let st1 : St := { st with
    androids := st.androids.filter fun s => s.id != sock.id
    espCams := st.espCams.filter fun s => s.id != sock.id
    espStandards := st.espStandards.filter fun s => s.id != sock.id }
  let outs :=
    if clientType = some "esp32-cam" then
      broadcastEspStatusOuts st1 "espCam" (decide (0 < st1.espCams.length))
    else if clientType = some "esp32-standard" then
      broadcastEspStatusOuts st1 "espStandard" (decide (0 < st1.espStandards.length))
    else []
  (st1, outs)

/-- The registration timeout callback, variant A: after
registrationTimeoutDelay ms it closes a still-unclassified OPEN
connection with code 1008, sending no error envelope first. A
connection whose register was processed has a non-null clientType (and
the timer was cleared), so the callback does nothing for it. -/
def registrationTimeoutFire (sock : Socket) (clientType : Option String) : List Out :=
  if clientType = none ∧ sock.isOpen then
    [Out.closeConn sock.id 1008 "Non enregistré"]
  else []

/-- Registration/close events against the variant A registry. -/
inductive Ev where
  | reg (sock : Socket) (device : String)
  | closeEv (sock : Socket)
  deriving Repr, DecidableEq

/-- The state a freshly started variant A server has. -/
def initialState : St := ⟨[], [], [], [], [], []⟩

/-- Effect of one registry event on the server state. -/
def applyEv (now : Nat) (st : St) : Ev → St
  | Ev.reg sock device => (handleRegister st now sock device).1
  | Ev.closeEv sock => (handleClose st sock none).1

/-- Run a sequence of registry events from the initial state. -/
def runEvents (now : Nat) (evs : List Ev) : St :=
  evs.foldl (applyEv now) initialState

/-- Ids that appear in register events of a trace. -/
def regIds (evs : List Ev) : List ClientId :=
  evs.filterMap fun e =>
    match e with
    | Ev.reg s _ => some s.id
    | Ev.closeEv _ => none

/-- The role a connection ends the trace with: the device string of its
last registration, unless a close for it came later. -/
def lastStatus (evs : List Ev) (id : ClientId) : Option String :=
  evs.foldl
    (fun acc e =>
      match e with
      | Ev.reg s d => if s.id = id then some d else acc
      | Ev.closeEv s => if s.id = id then none else acc)
    none

/-- Membership of an id in a role bucket. -/
def memberOf (l : List Socket) (id : ClientId) : Bool :=
  l.any fun s => s.id == id

/-- Per-alert frames a retry sweep writes to one android socket. -/
def deliverOuts (a : Socket) (al : Alert) : List Out :=
  match al.imageData with
  | some d => [Out.binary a.id d, Out.json a.id "alert" al.message]
  | none => [Out.json a.id "alert" al.message]

end VA

namespace VB

/-- Queue capacity of variant B. -/
def MAX_QUEUE_SIZE : Nat := 50

/-- Variant B server state: three Maps keyed by clientId, the two
command queues and the photo queue, all bounded by MAX_QUEUE_SIZE. -/
structure St where
  androids : List Socket
  espCams : List Socket
  espStandards : List Socket
  espCamCommandsQueue : List Cmd
  espStandardCommandsQueue : List Cmd
  photoQueue : List String
  deriving Repr, DecidableEq

/-- broadcastEspStatus, variant B: presence booleans computed from the
Map sizes, sent to every android. -/
def espStatusOuts (st : St) : List Out :=
  st.androids.flatMap fun a =>
    sendJson a "esp_status"
      (statusBody (decide (0 < st.espCams.length)) (decide (0 < st.espStandards.length)))

/-- distributeCommand, variant B: the command is written to every OPEN
member of each role; when no member accepted it and the corresponding
queue still has room (length < MAX_QUEUE_SIZE) it is enqueued, else the
new command is dropped; the android (when given) receives
command_response with success true. -/
def distributeCommand (st : St) (ty params : String) (androidSocket : Option Socket) :
    St × List Out :=
  let camOuts := st.espCams.flatMap fun e => sendJson e ty params
  let sentToCam := st.espCams.any (fun e => e.isOpen)
  let camQ := if sentToCam = false ∧ st.espCamCommandsQueue.length < MAX_QUEUE_SIZE
    then st.espCamCommandsQueue ++ [Cmd.mk ty params] else st.espCamCommandsQueue
  let stdOuts := st.espStandards.flatMap fun e => sendJson e ty params
  let sentToStd := st.espStandards.any (fun e => e.isOpen)
  let stdQ := if sentToStd = false ∧ st.espStandardCommandsQueue.length < MAX_QUEUE_SIZE
    then st.espStandardCommandsQueue ++ [Cmd.mk ty params] else st.espStandardCommandsQueue
  let resp :=
    match androidSocket with
    | some a => if a.isOpen
        then [Out.cmdResponse a.id true (respMessage ty sentToCam sentToStd)] else []
    | none => []
  ({ st with espCamCommandsQueue := camQ, espStandardCommandsQueue := stdQ },
   camOuts ++ stdOuts ++ resp)

/-- The binary branch, variant B: an image from an esp32-cam is written
to every OPEN android; when none accepted it and the photo queue has
room it is enqueued; then distributeCommand routes turn_on_light to
both device roles. -/
def handleBinary (st : St) (clientType : Option String) (data : String) :
    St × List Out :=
  if clientType = some "esp32-cam" then
    let sendOuts := st.androids.flatMap fun a =>
      if a.isOpen then [Out.binary a.id data] else []
    let sentToAndroid := st.androids.any (fun a => a.isOpen)
    let photoQ := if sentToAndroid = false ∧ st.photoQueue.length < MAX_QUEUE_SIZE
      then st.photoQueue ++ [data] else st.photoQueue
    let r := distributeCommand { st with photoQueue := photoQ } "turn_on_light" "alert_image" none
    (r.1, sendOuts ++ r.2)
  else (st, [])

/-- The register branch, variant B: clientType is overwritten with the
declared device, old references of the clientId are removed from all
three Maps, and the connection is inserted into the new role bucket;
queued photos or commands are flushed to it. An unknown device string
closes the connection with code 1000 and sends no error envelope. -/
def handleRegister (st : St) (sock : Socket) (device : String) :
    St × Option String × List Out :=
  let st0 : St := { st with
    androids := st.androids.filter fun s => s.id != sock.id
    espCams := st.espCams.filter fun s => s.id != sock.id
    espStandards := st.espStandards.filter fun s => s.id != sock.id }
  if device = "android" then
    let st1 := { st0 with androids := st0.androids ++ [sock] }
    let o1 := sendJson sock "registered" "Enregistrement réussi"
    let o2 := espStatusOuts st1
    let o3 := st1.photoQueue.map fun d => Out.binary sock.id d
    ({ st1 with photoQueue := [] }, some device, o1 ++ o2 ++ o3)
  else if device = "esp32-cam" then
    let st1 := { st0 with espCams := st0.espCams ++ [sock] }
    let o1 := sendJson sock "registered" "Enregistrement réussi"
    let o3 := if sock.isOpen
      then st1.espCamCommandsQueue.map (fun c => Out.json sock.id c.ty c.params) else []
    let st2 := { st1 with espCamCommandsQueue := [] }
    (st2, some device, o1 ++ o3 ++ espStatusOuts st2)
  else if device = "esp32-standard" then
    let st1 := { st0 with espStandards := st0.espStandards ++ [sock] }
    let o1 := sendJson sock "registered" "Enregistrement réussi"
    let o3 := if sock.isOpen
      then st1.espStandardCommandsQueue.map (fun c => Out.json sock.id c.ty c.params) else []
    let st2 := { st1 with espStandardCommandsQueue := [] }
    (st2, some device, o1 ++ o3 ++ espStatusOuts st2)
  else
    (st0, some device, [Out.closeConn sock.id 1000 "Type de dispositif inconnu"])

end VB

namespace P0

/-- part_000 server state: one singleton slot per role and the
(unbounded) photo queue. -/
structure St where
  android : Option Socket
  espCam : Option Socket
  espStandard : Option Socket
  photoQueue : List String
  deriving Repr, DecidableEq

/-- part_000 registration grace period: 30 000 ms. -/
def registrationTimeoutDelay : Nat := 30000

/-- The part_000 registration timeout callback: a still-unclassified
connection is sent an error envelope and closed with code 1000 (the
same numeric code part_000 uses for the unknown-device close). -/
def registrationTimeoutFire (id : ClientId) (clientType : Option String) : List Out :=
  if clientType = none then
    [Out.json id "error" "Enregistrement requis",
     Out.closeConn id 1000 "Enregistrement requis"]
  else []

/-- sendToEspStandard with the turn_on_light message: only writes when
the singleton espStandard slot holds an OPEN socket; there is no
command queue to fall back to. -/
def sendToEspStandardLight (st : St) : List Out :=
  match st.espStandard with
  | some s => if s.isOpen then [Out.json s.id "turn_on_light" ""] else []
  | none => []

/-- The binary branch of part_000 for a registered esp32-cam: the photo
goes to the android when that slot is OPEN, else into the photo queue;
then turn_on_light is attempted on the espStandard slot only. -/
def handleBinary (st : St) (data : String) : St × List Out :=
  match st.android with
  | some a =>
    if a.isOpen then (st, [Out.binary a.id data] ++ sendToEspStandardLight st)
    else ({ st with photoQueue := st.photoQueue ++ [data] }, sendToEspStandardLight st)
  | none => ({ st with photoQueue := st.photoQueue ++ [data] }, sendToEspStandardLight st)

end P0

namespace P1

/-- part_001 pending alert: no timestamp is stored, so no age-based
purge is even expressible there. -/
structure Alert where
  message : String
  imageData : Option String
  deriving Repr, DecidableEq

/-- part_001 server state: same buckets as variant A but no command
queues. -/
structure St where
  androids : List Socket
  espCams : List Socket
  espStandards : List Socket
  pendingAlerts : List Alert
  deriving Repr, DecidableEq

/-- broadcastAlertToAndroids, part_001. -/
def broadcastAlertToAndroids (st : St) (message : String) (imageData : Option String) :
    St × List Out :=
  if 0 < st.androids.length then
    (st, st.androids.flatMap fun a =>
      if a.isOpen then
        match imageData with
        | some d => [Out.binary a.id d, Out.json a.id "alert" message]
        | none => [Out.json a.id "alert" message]
      else [])
  else ({ st with pendingAlerts := st.pendingAlerts ++ [⟨message, imageData⟩] }, [])

/-- retryPendingAlerts, part_001: no purge attempt at all. -/
def retryPendingAlerts (st : St) : St × List Out :=
  if st.pendingAlerts.length = 0 ∨ st.androids.length = 0 then (st, [])
  else
    let alertsToSend := st.pendingAlerts
    alertsToSend.foldl
      (fun acc al =>
        let r := broadcastAlertToAndroids acc.1 al.message al.imageData
        (r.1, acc.2 ++ r.2))
      ({ st with pendingAlerts := [] }, [])

/-- broadcastEspStatus, part_001. -/
def broadcastEspStatusOuts (st : St) (espType : String) (connected : Bool) : List Out :=
  st.androids.flatMap fun a =>
    if a.isOpen then sendJson a "esp_status" (espType ++ "=" ++ toString connected) else []

/-- The register branch of part_001. part_001 never sets a clientType
field and never starts a registration timeout; an unknown device string
is answered with an error envelope and the connection is left open and
outside every bucket. -/
def handleRegister (st : St) (sock : Socket) (device : String) : St × List Out :=
  if device = "android" then
    let st1 := { st with androids := mapSet st.androids sock }
    let o1 := sendJson sock "registered" "Enregistrement réussi"
    let o2 := sendJson sock "esp_status"
      (statusBody (decide (0 < st1.espCams.length)) (decide (0 < st1.espStandards.length)))
    let r := retryPendingAlerts st1
    (r.1, o1 ++ o2 ++ r.2)
  else if device = "esp32-cam" then
    let st1 := { st with espCams := st.espCams ++ [sock] }
    (st1, sendJson sock "registered" "Enregistrement réussi"
            ++ broadcastEspStatusOuts st1 "espCam" true)
  else if device = "esp32-standard" then
    let st1 := { st with espStandards := st.espStandards ++ [sock] }
    (st1, sendJson sock "registered" "Enregistrement réussi"
            ++ broadcastEspStatusOuts st1 "espStandard" true)
  else
    (st, sendJson sock "error" ("Type d\x27appareil inconnu: " ++ device))

end P1

namespace P2

/-- part_002 server state: a Map of androids, singleton ESP slots and
the bounded photo queue; part_002 has no command queues. -/
structure St where
  androids : List Socket
  espCam : Option Socket
  espStandard : Option Socket
  photoQueue : List String
  deriving Repr, DecidableEq

/-- Response message of the part_002 command handler: OK or Non
connecté per role. -/
def respMessage (ty : String) (cam std : Bool) : String :=
  ty ++ " envoyé. CAM: " ++ (if cam then "OK" else "Non connecté")
     ++ ", STD: " ++ (if std then "OK" else "Non connecté")

/-- broadcastEspStatus, part_002: presence computed from the singleton
slots, sent to every OPEN android. -/
def espStatusOuts (st : St) : List Out :=
  st.androids.flatMap fun a =>
    if a.isOpen then
      [Out.json a.id "esp_status" (statusBody st.espCam.isSome st.espStandard.isSome)]
    else []

/-- The android command branch of part_002 (network_config or
security_config): the raw command is forwarded to whichever singleton
ESP slot holds an OPEN socket; nothing is stored anywhere for an absent
role (part_002 has no command queue); the response always carries
success true. -/
def handleAndroidCommand (st : St) (ty params : String) (sender : Socket) :
    St × List Out :=
  let camOuts :=
    match st.espCam with
    | some c => if c.isOpen then [Out.json c.id ty params] else []
    | none => []
  let sentToCam :=
    match st.espCam with
    | some c => c.isOpen
    | none => false
  let stdOuts :=
    match st.espStandard with
    | some c => if c.isOpen then [Out.json c.id ty params] else []
    | none => []
  let sentToStd :=
    match st.espStandard with
    | some c => c.isOpen
    | none => false
  (st, camOuts ++ stdOuts
    ++ [Out.cmdResponse sender.id true (respMessage ty sentToCam sentToStd)])

/-- The register branch of part_002: the singleton ESP slots are simply
overwritten (an earlier same-role registration is displaced without any
close or removal bookkeeping); an unknown device string gets an error
envelope and a close with code 1000. -/
def handleRegister (st : St) (sock : Socket) (device : String) :
    St × Option String × List Out :=
  if device = "android" then
    let st1 := { st with androids := mapSet st.androids sock }
    let o3 := st1.photoQueue.map fun d => Out.binary sock.id d
    let st2 := { st1 with photoQueue := ([] : List String) }
    (st2, some device,
      [Out.json sock.id "registered" "Enregistrement réussi"] ++ o3 ++ espStatusOuts st2)
  else if device = "esp32-cam" then
    let st1 := { st with espCam := some sock }
    (st1, some device,
      [Out.json sock.id "registered" "Enregistrement réussi"] ++ espStatusOuts st1)
  else if device = "esp32-standard" then
    let st1 := { st with espStandard := some sock }
    (st1, some device,
      [Out.json sock.id "registered" "Enregistrement réussi"] ++ espStatusOuts st1)
  else
    (st, some device,
      [Out.json sock.id "error" "Type de dispositif inconnu",
       Out.closeConn sock.id 1000 "Type de dispositif inconnu"])

/-- The close handler of part_002: removal is keyed on the clientType
the closing socket carries; a closing device nulls the whole singleton
slot for its role, whoever currently occupies it. -/
def handleClose (st : St) (id : ClientId) (clientType : Option String) :
    St × List Out :=
  if clientType = some "android" then
    ({ st with androids := st.androids.filter fun s => s.id != id }, [])
  else if clientType = some "esp32-cam" then
    let st1 := { st with espCam := none }
    (st1, espStatusOuts st1)
  else if clientType = some "esp32-standard" then
    let st1 := { st with espStandard := none }
    (st1, espStatusOuts st1)
  else (st, [])

end P2

/-- The four role strings the registration handshake recognizes in any
variant (the controller role plus the two device roles; anything else
is an unknown device type). -/
abbrev isKnownDevice (d : String) : Prop :=
  d = "android" ∨ d = "esp32-cam" ∨ d = "esp32-standard"

/-- C1: the purge in retryPendingAlerts is dead code. With one OPEN
android and a single pending alert stamped at time 0, a retry sweep at
time 7 200 000 ms (two hours later, double the configured maxAge of one
hour) still delivers the over-age alert to the android and empties the
queue: the alert is neither removed by the purge nor withheld from
delivery, because the filter result is discarded by the source. -/
theorem claim1_expired_alert_delivered :
    VA.maxAge < 7200000 - 0
  ∧ VA.retryPendingAlerts
      (⟨[⟨1, true⟩], [], [], [], [], [⟨"intrusion", none, 0⟩]⟩ : VA.St) 7200000
      = (⟨[⟨1, true⟩], [], [], [], [], []⟩, [Out.json 1 "alert" "intrusion"]) := by
  exact ⟨by decide, by decide⟩

/-- C2 counterexample: the pending-alert queue of serveur_fin variant A
is unbounded. Starting from a queue that already holds 50 alerts and no
connected android, one more broadcastAlertToAndroids call grows the
queue to 51 entries instead of dropping the new item. -/
theorem claim2_counterexample :
    ((VA.broadcastAlertToAndroids
        (⟨[], [], [], [], [], List.replicate 50 ⟨"a", none, 0⟩⟩ : VA.St)
        0 "b" none).1.pendingAlerts).length = 51 := by
  decide

/-- C3 counterexample: in part_002 a controller command issued with
zero devices registered is dropped, not enqueued — the state (which has
no command queues at all) is returned unchanged and the only output is
the command_response reporting Non connecté for both roles. -/
theorem claim3_counterexample :
    P2.handleAndroidCommand (⟨[⟨3, true⟩], none, none, []⟩ : P2.St)
        "network_config" "ssid=ferme" ⟨3, true⟩
      = (⟨[⟨3, true⟩], none, none, []⟩,
         [Out.cmdResponse 3 true (P2.respMessage "network_config" false false)]) := by
  decide

/-- C4 counterexample, variant A. First: an alert from an esp32-cam
while the espStandard role has zero members enqueues nothing into the
espStandard command queue and emits no output at all (the alert itself
goes to pendingAlerts since no android is connected). Second: a binary
image from an esp32-cam produces no turn_on_light whatsoever, even
though an OPEN espStandard (id 5) is connected — only the image and the
fixed alert text go to the android. -/
theorem claim4_counterexample :
    VA.handleAlert (⟨[], [⟨1, true⟩], [], [], [], []⟩ : VA.St) 0 "esp32-cam" "intrus"
      = (⟨[], [⟨1, true⟩], [], [], [], [⟨"intrus", none, 0⟩]⟩, [])
  ∧ VA.handleBinary (⟨[⟨2, true⟩], [⟨1, true⟩], [⟨5, true⟩], [], [], []⟩ : VA.St)
        0 "esp32-cam" "img"
      = (⟨[⟨2, true⟩], [⟨1, true⟩], [⟨5, true⟩], [], [], []⟩,
         [Out.binary 2 "img", Out.json 2 "alert" "Photo capturée lors d\x27une alerte"]) := by
  exact ⟨by decide, by decide⟩

/-- C5 counterexample: registering with the unknown device string frigo
on serveur_fin variant B closes the connection with code 1000 but never
sends the error envelope the claim requires; on part_001 it sends the
error envelope but never closes the connection. -/
theorem claim5_counterexample :
    VB.handleRegister (⟨[], [], [], [], [], []⟩ : VB.St) ⟨4, true⟩ "frigo"
      = (⟨[], [], [], [], [], []⟩, some "frigo",
         [Out.closeConn 4 1000 "Type de dispositif inconnu"])
  ∧ P1.handleRegister (⟨[], [], [], []⟩ : P1.St) ⟨4, true⟩ "frigo"
      = (⟨[], [], [], []⟩, [Out.json 4 "error" "Type d\x27appareil inconnu: frigo"]) := by
  exact ⟨by decide, by decide⟩

/-- C6 counterexample: a connection of id 7 already registered as
android (present in the androids Map, clientType android) sends a
second register declaring esp32-cam; variant B re-assigns its role to
esp32-cam and moves it from the androids bucket into the espCams
bucket, so the role is not set at most once. -/
theorem claim6_counterexample :
    VB.handleRegister (⟨[⟨7, true⟩], [], [], [], [], []⟩ : VB.St) ⟨7, true⟩ "esp32-cam"
      = (⟨[], [⟨7, true⟩], [], [], [], []⟩, some "esp32-cam",
         [Out.json 7 "registered" "Enregistrement réussi"]) := by
  decide

/-- C7 counterexample: the registration grace period is 10 s in
serveur_fin and 30 s in part_000, not 15 s; when the serveur_fin
timeout fires on an unregistered OPEN connection the only frame is the
close with code 1008 — no final error notice precedes it; part_000 does
send the notice but closes with code 1000, the same numeric code it
uses for the unknown-device close. -/
theorem claim7_counterexample :
    VA.registrationTimeoutDelay = 10000
  ∧ VA.registrationTimeoutDelay ≠ 15000
  ∧ P0.registrationTimeoutDelay = 30000
  ∧ VA.registrationTimeoutFire ⟨1, true⟩ none = [Out.closeConn 1 1008 "Non enregistré"]
  ∧ P0.registrationTimeoutFire 2 none
      = [Out.json 2 "error" "Enregistrement requis",
         Out.closeConn 2 1000 "Enregistrement requis"] := by
  exact ⟨by decide, by decide, by decide, by decide, by decide⟩

/-- C9 counterexample, part_002: two capture devices (ids 1 and 2)
register in turn; the singleton espCam slot keeps only the later one;
when the first closes, the close handler nulls the slot outright, so
after 2 registrations and 1 close the registry holds zero capture
devices while the still-open, still-registered connection 2 survives —
membership diverges from the survivor set. -/
theorem claim9_counterexample :
    ((P2.handleRegister (P2.handleRegister
        (⟨[], none, none, []⟩ : P2.St) ⟨1, true⟩ "esp32-cam").1
        ⟨2, true⟩ "esp32-cam").1).espCam = some ⟨2, true⟩
  ∧ (P2.handleClose ((P2.handleRegister (P2.handleRegister
        (⟨[], none, none, []⟩ : P2.St) ⟨1, true⟩ "esp32-cam").1
        ⟨2, true⟩ "esp32-cam").1) 1 (some "esp32-cam")).1.espCam = none := by
  exact ⟨by decide, by decide⟩

/-- C7 amended: a connection that registered (non-null clientType)
within the grace period is never closed by either timeout mechanism;
the serveur_fin timeout closes an unregistered connection with code
1008 and no prior error notice, only when the socket is still OPEN;
the part_000 timeout sends the error notice then the close with code
1000. -/
theorem claim7_amended (sock : Socket) (id : ClientId) (r : String) :
    VA.registrationTimeoutFire sock (some r) = []
  ∧ P0.registrationTimeoutFire id (some r) = []
  ∧ VA.registrationTimeoutFire sock none
      = (if sock.isOpen then [Out.closeConn sock.id 1008 "Non enregistré"] else [])
  ∧ P0.registrationTimeoutFire id none
      = [Out.json id "error" "Enregistrement requis",
         Out.closeConn id 1000 "Enregistrement requis"] := by
  refine ⟨?_, ?_, ?_, ?_⟩
  · simp [VA.registrationTimeoutFire]
  · simp [P0.registrationTimeoutFire]
  · simp [VA.registrationTimeoutFire]
  · simp [P0.registrationTimeoutFire]

lemma allResponsesSuccess_append (l1 l2 : List Out) :
    allResponsesSuccess (l1 ++ l2) = (allResponsesSuccess l1 && allResponsesSuccess l2) := by
  simp [allResponsesSuccess, List.all_append]

lemma allResponsesSuccess_sendJson (s : Socket) (ty body : String) :
    allResponsesSuccess (sendJson s ty body) = true := by
  unfold sendJson allResponsesSuccess
  split <;> simp

lemma allResponsesSuccess_flatMapSend (l : List Socket) (ty body : String) :
    allResponsesSuccess (l.flatMap fun e => sendJson e ty body) = true := by
  induction l with
  | nil => rfl
  | cons a t ih =>
    simp only [List.flatMap_cons, allResponsesSuccess_append, ih,
      allResponsesSuccess_sendJson, Bool.and_self]

/-- C10: the command_response produced by the command distribution path
carries success = true for every state and every command — in
serveur_fin variant A distributeCommand and in the part_002 android
command handler alike, the flag is a literal and never reflects whether
the command was delivered, queued or dropped. -/
theorem claim10_success_flag (st1 : VA.St) (st2 : P2.St) (ty1 params1 ty2 params2 : String)
    (a sender : Socket) :
    allResponsesSuccess (VA.distributeCommand st1 ty1 params1 a).2 = true
  ∧ allResponsesSuccess (P2.handleAndroidCommand st2 ty2 params2 sender).2 = true := by
  constructor
  · have hsel : ∀ (l : List Socket),
        allResponsesSuccess
          (if 0 < l.length then l.flatMap (fun e => sendJson e ty1 params1) else []) = true := by
      intro l
      split
      · exact allResponsesSuccess_flatMapSend l ty1 params1
      · rfl
    unfold VA.distributeCommand
    simp only [allResponsesSuccess_append, hsel, Bool.true_and]
    split <;> simp [allResponsesSuccess]
  · unfold P2.handleAndroidCommand
    rcases hc : st2.espCam with _ | c <;> rcases hd : st2.espStandard with _ | d <;>
      simp only [allResponsesSuccess_append, Bool.and_eq_true] <;>
      refine ⟨⟨?_, ?_⟩, ?_⟩ <;>
      first
        | (split <;> simp [allResponsesSuccess])
        | simp [allResponsesSuccess]

/-- C2 amended: in serveur_fin variant B every queue is bounded: if a
queue holds at most MAX_QUEUE_SIZE items before the operation it still
does afterwards, and a push arriving when the queue already holds
exactly MAX_QUEUE_SIZE items drops the new item and leaves the queue
unchanged (drop-new policy); variant A queues, by contrast, are
unbounded (see the counterexample). -/
theorem claim2_amended (st : VB.St) (ty params data : String) (a : Option Socket)
    (h1 : st.espCamCommandsQueue.length ≤ VB.MAX_QUEUE_SIZE)
    (h2 : st.espStandardCommandsQueue.length ≤ VB.MAX_QUEUE_SIZE)
    (h3 : st.photoQueue.length ≤ VB.MAX_QUEUE_SIZE) :
    ((VB.distributeCommand st ty params a).1.espCamCommandsQueue.length ≤ VB.MAX_QUEUE_SIZE
      ∧ (VB.distributeCommand st ty params a).1.espStandardCommandsQueue.length
          ≤ VB.MAX_QUEUE_SIZE
      ∧ (VB.handleBinary st (some "esp32-cam") data).1.photoQueue.length ≤ VB.MAX_QUEUE_SIZE)
  ∧ (st.espCamCommandsQueue.length = VB.MAX_QUEUE_SIZE →
      (VB.distributeCommand st ty params a).1.espCamCommandsQueue = st.espCamCommandsQueue)
  ∧ (st.espStandardCommandsQueue.length = VB.MAX_QUEUE_SIZE →
      (VB.distributeCommand st ty params a).1.espStandardCommandsQueue
        = st.espStandardCommandsQueue)
  ∧ (st.photoQueue.length = VB.MAX_QUEUE_SIZE →
      (VB.handleBinary st (some "esp32-cam") data).1.photoQueue = st.photoQueue) := by
  have hbin : (VB.handleBinary st (some "esp32-cam") data).1.photoQueue
      = (if (st.androids.any fun a => a.isOpen) = false
            ∧ st.photoQueue.length < VB.MAX_QUEUE_SIZE
         then st.photoQueue ++ [data] else st.photoQueue) := by
    simp [VB.handleBinary, VB.distributeCommand]
  refine ⟨⟨?_, ?_, ?_⟩, ?_, ?_, ?_⟩
  · simp only [VB.distributeCommand]
    split
    · rename_i hcond
      have hlen := hcond.2
      simp only [List.length_append, List.length_cons, List.length_nil]
      omega
    · exact h1
  · simp only [VB.distributeCommand]
    split
    · rename_i hcond
      have hlen := hcond.2
      simp only [List.length_append, List.length_cons, List.length_nil]
      omega
    · exact h2
  · rw [hbin]
    split
    · rename_i hcond
      have hlen := hcond.2
      simp only [List.length_append, List.length_cons, List.length_nil]
      omega
    · exact h3
  · intro hfull
    simp only [VB.distributeCommand]
    split
    · rename_i hcond
      have hlen := hcond.2
      omega
    · rfl
  · intro hfull
    simp only [VB.distributeCommand]
    split
    · rename_i hcond
      have hlen := hcond.2
      omega
    · rfl
  · intro hfull
    rw [hbin]
    split
    · rename_i hcond
      have hlen := hcond.2
      omega
    · rfl

def claim2State : VB.St :=
  ⟨[], [], [], List.replicate 50 ⟨"a", "b"⟩, List.replicate 50 ⟨"a", "b"⟩,
   List.replicate 50 "p"⟩

theorem claim2_witness :
    (claim2State.espCamCommandsQueue.length ≤ VB.MAX_QUEUE_SIZE
      ∧ claim2State.espStandardCommandsQueue.length ≤ VB.MAX_QUEUE_SIZE
      ∧ claim2State.photoQueue.length ≤ VB.MAX_QUEUE_SIZE
      ∧ claim2State.photoQueue.length = VB.MAX_QUEUE_SIZE)
  ∧ (VB.handleBinary claim2State (some "esp32-cam") "img").1.photoQueue
      = claim2State.photoQueue :=
  ⟨⟨by decide, by decide, by decide, by decide⟩,
   (claim2_amended claim2State "network_config" "p" "img" none
      (by decide) (by decide) (by decide)).2.2.2 (by decide)⟩

/-- C3 amended: in serveur_fin variant A a network_config or
security_config command from an OPEN controller while both device
buckets are empty is appended — type and params preserved verbatim — to
both command queues, and the controller receives command_response with
success true whose message reports Queue for both roles; in part_002,
which has no command queues, the same command is dropped and the
response reports Non connecté for both roles. -/
theorem claim3_amended (st : VA.St) (ty params : String) (a : Socket)
    (h1 : st.espCams = []) (h2 : st.espStandards = []) (ha : a.isOpen = true) :
    (VA.distributeCommand st ty params a).1.espCamCommandsQueue
        = st.espCamCommandsQueue ++ [Cmd.mk ty params]
  ∧ (VA.distributeCommand st ty params a).1.espStandardCommandsQueue
        = st.espStandardCommandsQueue ++ [Cmd.mk ty params]
  ∧ (VA.distributeCommand st ty params a).2
        = [Out.cmdResponse a.id true (respMessage ty false false)]
  ∧ (∀ (st2 : P2.St), st2.espCam = none → st2.espStandard = none →
      P2.handleAndroidCommand st2 ty params a
        = (st2, [Out.cmdResponse a.id true (P2.respMessage ty false false)])) := by
  refine ⟨?_, ?_, ?_, ?_⟩
  · simp [VA.distributeCommand, h1, h2]
  · simp [VA.distributeCommand, h1, h2]
  · simp [VA.distributeCommand, h1, h2, ha]
  · intro st2 hc hd
    simp [P2.handleAndroidCommand, hc, hd]

def claim3State : VA.St := ⟨[], [], [], [], [], []⟩

theorem claim3_witness :
    (claim3State.espCams = [] ∧ claim3State.espStandards = []
      ∧ (Socket.mk 9 true).isOpen = true)
  ∧ (VA.distributeCommand claim3State "network_config" "ssid=ferme" ⟨9, true⟩).1.espCamCommandsQueue
      = claim3State.espCamCommandsQueue ++ [Cmd.mk "network_config" "ssid=ferme"] :=
  ⟨⟨rfl, rfl, rfl⟩,
   (claim3_amended claim3State "network_config" "ssid=ferme" ⟨9, true⟩ rfl rfl rfl).1⟩

/-- C5 amended: a register with an unrecognized device string never
puts the connection into any role bucket, but the reply and close
behavior differ by variant: serveur_fin variant A answers with an error
envelope and then closes with code 1008 (the same numeric code its
registration timeout uses, distinguished only by the reason string);
variant B closes with code 1000 and sends no error envelope (it
additionally removes the connection id from all buckets); part_001
answers with an error envelope and does not close. In variants A and B
the connection clientType is nevertheless overwritten with the unknown
string. -/
theorem claim5_amended (stA : VA.St) (stB : VB.St) (stP : P1.St) (sock : Socket)
    (device : String) (now : Nat) (h : ¬ isKnownDevice device) :
    VA.handleRegister stA now sock device
      = (stA, some device,
         sendJson sock "error" ("Type d\x27appareil inconnu: " ++ device)
           ++ [Out.closeConn sock.id 1008 "Type d\x27appareil inconnu"])
  ∧ VB.handleRegister stB sock device
      = ({ stB with
            androids := stB.androids.filter fun s => s.id != sock.id
            espCams := stB.espCams.filter fun s => s.id != sock.id
            espStandards := stB.espStandards.filter fun s => s.id != sock.id },
         some device, [Out.closeConn sock.id 1000 "Type de dispositif inconnu"])
  ∧ P1.handleRegister stP sock device
      = (stP, sendJson sock "error" ("Type d\x27appareil inconnu: " ++ device)) := by
  simp only [isKnownDevice, not_or] at h
  obtain ⟨hA, hC, hS⟩ := h
  refine ⟨?_, ?_, ?_⟩
  · simp [VA.handleRegister, hA, hC, hS]
  · simp [VB.handleRegister, hA, hC, hS]
  · simp [P1.handleRegister, hA, hC, hS]

theorem claim5_witness :
    (¬ isKnownDevice "frigo")
  ∧ P1.handleRegister (⟨[], [], [], []⟩ : P1.St) ⟨8, true⟩ "frigo"
      = ((⟨[], [], [], []⟩ : P1.St),
         sendJson ⟨8, true⟩ "error" ("Type d\x27appareil inconnu: " ++ "frigo")) :=
  ⟨by decide,
   (claim5_amended ⟨[], [], [], [], [], []⟩ ⟨[], [], [], [], [], []⟩ ⟨[], [], [], []⟩
      ⟨8, true⟩ "frigo" 0 (by decide)).2.2⟩

/-- C6 amended: a connection role is re-assignable. When a connection
already registered under some role sends register with device
esp32-cam, variant B sets its clientType to esp32-cam, removes its id
from every bucket and appends it to the espCams bucket (the connection
migrates); variant A sets the new clientType and appends the socket to
espCams while leaving any earlier androids entry untouched (the
connection ends up in two buckets). -/
theorem claim6_amended (stA : VA.St) (stB : VB.St) (now : Nat) (sock : Socket) :
    ((VB.handleRegister stB sock "esp32-cam").2.1 = some "esp32-cam"
      ∧ (VB.handleRegister stB sock "esp32-cam").1.androids
          = stB.androids.filter (fun s => s.id != sock.id)
      ∧ (VB.handleRegister stB sock "esp32-cam").1.espCams
          = stB.espCams.filter (fun s => s.id != sock.id) ++ [sock])
  ∧ ((VA.handleRegister stA now sock "esp32-cam").2.1 = some "esp32-cam"
      ∧ (VA.handleRegister stA now sock "esp32-cam").1.androids = stA.androids
      ∧ (VA.handleRegister stA now sock "esp32-cam").1.espCams = stA.espCams ++ [sock]) := by
  refine ⟨⟨?_, ?_, ?_⟩, ?_, ?_, ?_⟩ <;>
    simp [VB.handleRegister, VA.handleRegister]

lemma isTurnOnLight_alertJson (i : ClientId) (m : String) :
    isTurnOnLight (Out.json i "alert" m) = false := rfl

lemma isTurnOnLight_binaryOut (i : ClientId) (m : String) :
    isTurnOnLight (Out.binary i m) = false := rfl

lemma isTurnOnLight_lightJson (i : ClientId) (m : String) :
    isTurnOnLight (Out.json i "turn_on_light" m) = true := rfl

lemma filterLight_flatMap_alert (l : List Socket) (message : String)
    (imageData : Option String) :
    ((l.flatMap fun a =>
        if a.isOpen then
          match imageData with
          | some d => [Out.binary a.id d, Out.json a.id "alert" message]
          | none => [Out.json a.id "alert" message]
        else []).filter isTurnOnLight) = [] := by
  induction l with
  | nil => rfl
  | cons a t ih =>
    simp only [List.flatMap_cons, List.filter_append, ih, List.append_nil]
    split
    · rcases imageData with _ | d <;>
        simp [isTurnOnLight_alertJson, isTurnOnLight_binaryOut]
    · rfl

lemma broadcast_no_light (st : VA.St) (now : Nat) (m : String) (i : Option String) :
    (VA.broadcastAlertToAndroids st now m i).2.filter isTurnOnLight = [] := by
  unfold VA.broadcastAlertToAndroids
  split
  · exact filterLight_flatMap_alert st.androids m i
  · rfl

lemma broadcast_state (st : VA.St) (now : Nat) (m : String) (i : Option String) :
    (VA.broadcastAlertToAndroids st now m i).1.androids = st.androids
  ∧ (VA.broadcastAlertToAndroids st now m i).1.espCams = st.espCams
  ∧ (VA.broadcastAlertToAndroids st now m i).1.espStandards = st.espStandards
  ∧ (VA.broadcastAlertToAndroids st now m i).1.espCamCommandsQueue = st.espCamCommandsQueue
  ∧ (VA.broadcastAlertToAndroids st now m i).1.espStandardCommandsQueue
      = st.espStandardCommandsQueue := by
  unfold VA.broadcastAlertToAndroids
  split <;> simp

lemma lightSweep_eq (others : List Socket) (q : List Cmd) (outs : List Out) :
    others.foldl
      (fun acc e =>
        if e.isOpen then (acc.1, acc.2 ++ [Out.json e.id "turn_on_light" "alert_detected"])
        else (acc.1 ++ [Cmd.mk "turn_on_light" "alert_detected"], acc.2))
      (q, outs)
    = (q ++ (others.filter fun s => !s.isOpen).map
          (fun _ => Cmd.mk "turn_on_light" "alert_detected"),
       outs ++ (others.filter fun s => s.isOpen).map
          fun s => Out.json s.id "turn_on_light" "alert_detected") := by
  induction others generalizing q outs with
  | nil => simp
  | cons e t ih =>
    by_cases he : e.isOpen
    · simp [List.foldl_cons, he, ih]
    · simp [List.foldl_cons, he, ih]

lemma isTurnOnLight_lightEmpty (i : ClientId) :
    isTurnOnLight (Out.json i "turn_on_light" "") = true := rfl

lemma filterLight_sendToEspStandard (st0 : P0.St) :
    (P0.sendToEspStandardLight st0).filter isTurnOnLight = P0.sendToEspStandardLight st0 := by
  unfold P0.sendToEspStandardLight
  rcases st0.espStandard with _ | s
  · rfl
  · split
    · simp [isTurnOnLight_lightEmpty]
    · rfl

/-- C4 amended, for serveur_fin variant A and part_000. On a JSON alert
from either device role in variant A: turn_on_light is written to
exactly the OPEN members of the other device role, one enqueue lands in
the command queue of the other role for each member that is present but
not OPEN, and — since an empty member list contributes neither —
nothing at all is queued when the other role has zero members; the
command queue of the sender role is untouched. On a binary image from
an esp32-cam in variant A: no turn_on_light is produced anywhere and
both command queues are untouched. On a binary image in part_000: the
only turn_on_light output is the direct send of sendToEspStandard,
which writes exactly when the singleton espStandard slot holds an OPEN
socket and writes nothing otherwise; no command is ever enqueued — the
state changes at most by appending the image to the photo queue, and
the role slots are untouched. -/
theorem claim4_amended (st : VA.St) (now : Nat) (msg data : String) :
    ((VA.handleAlert st now "esp32-cam" msg).1.espStandardCommandsQueue
      = st.espStandardCommandsQueue
        ++ (st.espStandards.filter fun s => !s.isOpen).map
             (fun _ => Cmd.mk "turn_on_light" "alert_detected")
  ∧ (VA.handleAlert st now "esp32-cam" msg).1.espCamCommandsQueue = st.espCamCommandsQueue
  ∧ (VA.handleAlert st now "esp32-cam" msg).2.filter isTurnOnLight
      = (st.espStandards.filter fun s => s.isOpen).map
          (fun s => Out.json s.id "turn_on_light" "alert_detected"))
  ∧ ((VA.handleAlert st now "esp32-standard" msg).1.espCamCommandsQueue
      = st.espCamCommandsQueue
        ++ (st.espCams.filter fun s => !s.isOpen).map
             (fun _ => Cmd.mk "turn_on_light" "alert_detected")
  ∧ (VA.handleAlert st now "esp32-standard" msg).1.espStandardCommandsQueue
      = st.espStandardCommandsQueue
  ∧ (VA.handleAlert st now "esp32-standard" msg).2.filter isTurnOnLight
      = (st.espCams.filter fun s => s.isOpen).map
          (fun s => Out.json s.id "turn_on_light" "alert_detected"))
  ∧ ((VA.handleBinary st now "esp32-cam" data).2.filter isTurnOnLight = []
  ∧ (VA.handleBinary st now "esp32-cam" data).1.espCamCommandsQueue = st.espCamCommandsQueue
  ∧ (VA.handleBinary st now "esp32-cam" data).1.espStandardCommandsQueue
      = st.espStandardCommandsQueue)
  ∧ (∀ (st0 : P0.St) (img : String),
      (P0.handleBinary st0 img).2.filter isTurnOnLight = P0.sendToEspStandardLight st0
    ∧ (P0.handleBinary st0 img).1.android = st0.android
    ∧ (P0.handleBinary st0 img).1.espCam = st0.espCam
    ∧ (P0.handleBinary st0 img).1.espStandard = st0.espStandard
    ∧ ((P0.handleBinary st0 img).1.photoQueue = st0.photoQueue
        ∨ (P0.handleBinary st0 img).1.photoQueue = st0.photoQueue ++ [img]))
  ∧ (∀ (s : Socket) (oa oc : Option Socket) (q : List String),
      P0.sendToEspStandardLight ⟨oa, oc, some s, q⟩
        = (if s.isOpen then [Out.json s.id "turn_on_light" ""] else [])
    ∧ P0.sendToEspStandardLight ⟨oa, oc, none, q⟩ = []) := by
  have hb : VA.handleBinary st now "esp32-cam" data
      = VA.broadcastAlertToAndroids st now "Photo capturée lors d\x27une alerte" (some data) := by
    simp [VA.handleBinary]
  have hlight : (isTurnOnLight ∘ fun s : Socket => Out.json s.id "turn_on_light" "alert_detected")
      = fun _ => true := by
    funext s
    exact isTurnOnLight_lightJson s.id "alert_detected"
  refine ⟨⟨?_, ?_, ?_⟩, ⟨?_, ?_, ?_⟩, ⟨?_, ?_, ?_⟩, ?_, ?_⟩
  · simp only [VA.handleAlert, lightSweep_eq, List.append_nil, List.nil_append]
    rw [(broadcast_state _ now msg none).2.2.2.2]
    simp
  · simp only [VA.handleAlert, lightSweep_eq, List.append_nil, List.nil_append]
    rw [(broadcast_state _ now msg none).2.2.2.1]
    simp
  · simp only [VA.handleAlert, lightSweep_eq, List.append_nil, List.nil_append]
    rw [List.filter_append, broadcast_no_light, List.append_nil, List.filter_map]
    rw [hlight, List.filter_true]
    simp
  · simp only [VA.handleAlert, lightSweep_eq, List.append_nil, List.nil_append]
    rw [(broadcast_state _ now msg none).2.2.2.1]
    simp
  · simp only [VA.handleAlert, lightSweep_eq, List.append_nil, List.nil_append]
    rw [(broadcast_state _ now msg none).2.2.2.2]
    simp
  · simp only [VA.handleAlert, lightSweep_eq, List.append_nil, List.nil_append]
    rw [List.filter_append, broadcast_no_light, List.append_nil, List.filter_map]
    rw [hlight, List.filter_true]
    simp
  · rw [hb]
    exact broadcast_no_light st now _ (some data)
  · rw [hb]
    exact (broadcast_state st now _ (some data)).2.2.2.1
  · rw [hb]
    exact (broadcast_state st now _ (some data)).2.2.2.2
  · intro st0 img
    obtain ⟨oa, oc, os, q⟩ := st0
    unfold P0.handleBinary
    rcases oa with _ | a
    · refine ⟨?_, rfl, rfl, rfl, Or.inr rfl⟩
      exact filterLight_sendToEspStandard ⟨none, oc, os, q⟩
    · obtain ⟨aid, ab⟩ := a
      cases ab
      · refine ⟨?_, rfl, rfl, rfl, Or.inr rfl⟩
        exact filterLight_sendToEspStandard ⟨some ⟨aid, false⟩, oc, os, q⟩
      · refine ⟨?_, rfl, rfl, rfl, Or.inl rfl⟩
        show ((Out.binary aid img
              :: P0.sendToEspStandardLight ⟨some ⟨aid, true⟩, oc, os, q⟩).filter isTurnOnLight)
            = P0.sendToEspStandardLight ⟨some ⟨aid, true⟩, oc, os, q⟩
        rw [List.filter_cons]
        simp only [isTurnOnLight_binaryOut, Bool.false_eq_true, if_false]
        exact filterLight_sendToEspStandard ⟨some ⟨aid, true⟩, oc, os, q⟩
  · intro s oa oc q
    constructor
    · unfold P0.sendToEspStandardLight
      rfl
    · rfl

lemma retryFold_single_android (a : Socket) (ha : a.isOpen = true) (now : Nat)
    (L : List VA.Alert) (s0 : VA.St) (acc : List Out) (h : s0.androids = [a]) :
    L.foldl
      (fun acc2 al =>
        let r := VA.broadcastAlertToAndroids acc2.1 now al.message al.imageData
        (r.1, acc2.2 ++ r.2))
      (s0, acc)
    = (s0, acc ++ L.flatMap (VA.deliverOuts a)) := by
  induction L generalizing acc with
  | nil => simp
  | cons al t ih =>
    have hstep : VA.broadcastAlertToAndroids s0 now al.message al.imageData
        = (s0, VA.deliverOuts a al) := by
      unfold VA.broadcastAlertToAndroids
      rw [h]
      rcases hi : al.imageData with _ | d <;> simp [ha, VA.deliverOuts, hi]
    simp only [List.foldl_cons, hstep]
    rw [ih]
    simp

/-- C8: with exactly one OPEN controller registered, a retry sweep
empties the pending-alert queue and writes, for each retained alert in
queue order, exactly one delivery to that controller (the binary image
first when the alert carries one, then the alert envelope); a second
sweep starting from the emptied queue delivers nothing, so nothing is
duplicated across sweeps. -/
theorem claim8_retry_delivers_once (st : VA.St) (a : Socket) (now now2 : Nat)
    (h : st.androids = [a]) (ha : a.isOpen = true) :
    VA.retryPendingAlerts st now
      = ({ st with pendingAlerts := [] }, st.pendingAlerts.flatMap (VA.deliverOuts a))
  ∧ VA.retryPendingAlerts { st with pendingAlerts := [] } now2
      = ({ st with pendingAlerts := [] }, []) := by
  obtain ⟨andr, cams, stds, q1, q2, pend⟩ := st
  replace h : andr = [a] := h
  subst h
  constructor
  · rcases pend with _ | ⟨al, t⟩
    · simp [VA.retryPendingAlerts]
    · unfold VA.retryPendingAlerts
      rw [if_neg (by simp)]
      have hfold := retryFold_single_android a ha now (al :: t)
        (⟨[a], cams, stds, q1, q2, []⟩ : VA.St) [] rfl
      simpa using hfold
  · simp [VA.retryPendingAlerts]

def claim8State : VA.St := ⟨[⟨1, true⟩], [], [], [], [], [⟨"alerte", none, 5⟩]⟩

theorem claim8_witness :
    (claim8State.androids = [⟨1, true⟩] ∧ (Socket.mk 1 true).isOpen = true)
  ∧ (VA.retryPendingAlerts claim8State 10
      = ({ claim8State with pendingAlerts := [] },
         claim8State.pendingAlerts.flatMap (VA.deliverOuts ⟨1, true⟩))
    ∧ VA.retryPendingAlerts { claim8State with pendingAlerts := [] } 40
      = ({ claim8State with pendingAlerts := [] }, [])) :=
  ⟨⟨rfl, rfl⟩, claim8_retry_delivers_once claim8State ⟨1, true⟩ 10 40 rfl rfl⟩

lemma memberOf_append_single (l : List Socket) (s : Socket) (id : ClientId) :
    VA.memberOf (l ++ [s]) id = (VA.memberOf l id || (s.id == id)) := by
  simp [VA.memberOf, List.any_append]

lemma memberOf_filter_self (l : List Socket) (c : ClientId) :
    VA.memberOf (l.filter fun s => s.id != c) c = false := by
  induction l with
  | nil => rfl
  | cons a t ih =>
    by_cases hc : a.id = c
    · have hb : (a.id != c) = false := by simp [hc]
      simp only [List.filter_cons, hb, Bool.false_eq_true, if_false]
      exact ih
    · have hb : (a.id != c) = true := by simp [hc]
      have hh : (a.id == c) = false := beq_eq_false_iff_ne.mpr hc
      simp only [List.filter_cons, hb, if_true, VA.memberOf, List.any_cons, hh,
        Bool.false_or]
      exact ih

lemma memberOf_filter_other (l : List Socket) (c id : ClientId) (h : id ≠ c) :
    VA.memberOf (l.filter fun s => s.id != c) id = VA.memberOf l id := by
  induction l with
  | nil => rfl
  | cons a t ih =>
    by_cases hc : a.id = c
    · have hb : (a.id != c) = false := by simp [hc]
      have hh : (a.id == id) = false := by
        refine beq_eq_false_iff_ne.mpr ?_
        rw [hc]
        exact Ne.symm h
      simp only [List.filter_cons, hb, Bool.false_eq_true, if_false, VA.memberOf,
        List.any_cons, hh, Bool.false_or]
      exact ih
    · have hb : (a.id != c) = true := by simp [hc]
      simp only [List.filter_cons, hb, if_true, VA.memberOf, List.any_cons]
      rw [show (t.filter fun s => s.id != c).any (fun s => s.id == id)
            = VA.memberOf (t.filter fun s => s.id != c) id from rfl, ih]
      rfl

lemma memberOf_mapReplace (l : List Socket) (s : Socket) (id : ClientId) :
    VA.memberOf (l.map fun a => if a.id == s.id then s else a) id = VA.memberOf l id := by
  induction l with
  | nil => rfl
  | cons a t ih =>
    simp only [List.map_cons, VA.memberOf, List.any_cons] at *
    rw [ih]
    congr 1
    by_cases ha : (a.id == s.id) = true
    · have h2 : a.id = s.id := beq_iff_eq.mp ha
      rw [if_pos ha, h2]
    · simp only [ha, Bool.false_eq_true, if_false]

lemma memberOf_mapSet (l : List Socket) (s : Socket) (id : ClientId) :
    VA.memberOf (mapSet l s) id = (VA.memberOf l id || (s.id == id)) := by
  unfold mapSet
  split
  · rename_i hany
    rw [memberOf_mapReplace]
    by_cases hid : s.id = id
    · subst hid
      have hmem : VA.memberOf l s.id = true := by
        obtain ⟨x, hxl, hx⟩ := List.any_eq_true.mp hany
        exact List.any_eq_true.mpr ⟨x, hxl, hx⟩
      simp [hmem]
    · have : (s.id == id) = false := beq_eq_false_iff_ne.mpr hid
      simp [this]
  · exact memberOf_append_single l s id

lemma retryFold_state (now : Nat) (L : List VA.Alert) (p : VA.St × List Out) :
    ((L.foldl (fun acc2 al =>
        let r := VA.broadcastAlertToAndroids acc2.1 now al.message al.imageData
        (r.1, acc2.2 ++ r.2)) p).1.androids = p.1.androids)
  ∧ ((L.foldl (fun acc2 al =>
        let r := VA.broadcastAlertToAndroids acc2.1 now al.message al.imageData
        (r.1, acc2.2 ++ r.2)) p).1.espCams = p.1.espCams)
  ∧ ((L.foldl (fun acc2 al =>
        let r := VA.broadcastAlertToAndroids acc2.1 now al.message al.imageData
        (r.1, acc2.2 ++ r.2)) p).1.espStandards = p.1.espStandards) := by
  induction L generalizing p with
  | nil => exact ⟨rfl, rfl, rfl⟩
  | cons al t ih =>
    simp only [List.foldl_cons]
    refine ⟨?_, ?_, ?_⟩
    · rw [(ih _).1]
      exact (broadcast_state p.1 now al.message al.imageData).1
    · rw [(ih _).2.1]
      exact (broadcast_state p.1 now al.message al.imageData).2.1
    · rw [(ih _).2.2]
      exact (broadcast_state p.1 now al.message al.imageData).2.2.1

lemma retry_state (st : VA.St) (now : Nat) :
    (VA.retryPendingAlerts st now).1.androids = st.androids
  ∧ (VA.retryPendingAlerts st now).1.espCams = st.espCams
  ∧ (VA.retryPendingAlerts st now).1.espStandards = st.espStandards := by
  unfold VA.retryPendingAlerts
  split
  · exact ⟨rfl, rfl, rfl⟩
  · exact ⟨(retryFold_state now st.pendingAlerts _).1,
      (retryFold_state now st.pendingAlerts _).2.1,
      (retryFold_state now st.pendingAlerts _).2.2⟩

lemma handleRegister_buckets (st : VA.St) (now : Nat) (sock : Socket) (device : String) :
    (VA.handleRegister st now sock device).1.androids
      = (if device = "android" then mapSet st.androids sock else st.androids)
  ∧ (VA.handleRegister st now sock device).1.espCams
      = (if device = "esp32-cam" then st.espCams ++ [sock] else st.espCams)
  ∧ (VA.handleRegister st now sock device).1.espStandards
      = (if device = "esp32-standard" then st.espStandards ++ [sock] else st.espStandards) := by
  unfold VA.handleRegister
  by_cases h1 : device = "android"
  · subst h1
    rw [if_pos rfl, if_pos rfl, if_neg (by decide), if_neg (by decide)]
    exact ⟨(retry_state _ now).1, (retry_state _ now).2.1, (retry_state _ now).2.2⟩
  · by_cases h2 : device = "esp32-cam"
    · subst h2
      rw [if_neg h1, if_neg h1, if_pos rfl, if_pos rfl, if_neg (by decide)]
      exact ⟨rfl, rfl, rfl⟩
    · by_cases h3 : device = "esp32-standard"
      · subst h3
        rw [if_neg h1, if_neg h1, if_neg h2, if_neg h2, if_pos rfl, if_pos rfl]
        exact ⟨rfl, rfl, rfl⟩
      · rw [if_neg h1, if_neg h1, if_neg h2, if_neg h2, if_neg h3, if_neg h3]
        exact ⟨rfl, rfl, rfl⟩

lemma handleClose_buckets (st : VA.St) (sock : Socket) (ct : Option String) :
    (VA.handleClose st sock ct).1.androids = st.androids.filter (fun s => s.id != sock.id)
  ∧ (VA.handleClose st sock ct).1.espCams = st.espCams.filter (fun s => s.id != sock.id)
  ∧ (VA.handleClose st sock ct).1.espStandards
      = st.espStandards.filter (fun s => s.id != sock.id) := by
  unfold VA.handleClose
  exact ⟨rfl, rfl, rfl⟩

lemma filter_ne_idem (l : List Socket) (c : ClientId) :
    ((l.filter fun s => s.id != c).filter fun s => s.id != c)
      = l.filter fun s => s.id != c := by
  rw [List.filter_filter]
  simp [Bool.and_self]

lemma handleClose_idem (st : VA.St) (sock : Socket) (ct : Option String) :
    (VA.handleClose (VA.handleClose st sock ct).1 sock ct).1
      = (VA.handleClose st sock ct).1 := by
  unfold VA.handleClose
  simp [filter_ne_idem]

lemma runEvents_append (now : Nat) (evs : List VA.Ev) (e : VA.Ev) :
    VA.runEvents now (evs ++ [e]) = VA.applyEv now (VA.runEvents now evs) e := by
  unfold VA.runEvents
  rw [List.foldl_append]
  rfl

lemma regIds_append_reg (evs : List VA.Ev) (s : Socket) (d : String) :
    VA.regIds (evs ++ [VA.Ev.reg s d]) = VA.regIds evs ++ [s.id] := by
  simp [VA.regIds]

lemma regIds_append_close (evs : List VA.Ev) (s : Socket) :
    VA.regIds (evs ++ [VA.Ev.closeEv s]) = VA.regIds evs := by
  simp [VA.regIds]

lemma lastStatus_append_reg (evs : List VA.Ev) (s : Socket) (d : String) (id : ClientId) :
    VA.lastStatus (evs ++ [VA.Ev.reg s d]) id
      = if s.id = id then some d else VA.lastStatus evs id := by
  unfold VA.lastStatus
  rw [List.foldl_append]
  rfl

lemma lastStatus_append_close (evs : List VA.Ev) (s : Socket) (id : ClientId) :
    VA.lastStatus (evs ++ [VA.Ev.closeEv s]) id
      = if s.id = id then none else VA.lastStatus evs id := by
  unfold VA.lastStatus
  rw [List.foldl_append]
  rfl

lemma lastStatus_not_reg (evs : List VA.Ev) (id : ClientId) (h : id ∉ VA.regIds evs) :
    VA.lastStatus evs id = none := by
  induction evs with
  | nil => rfl
  | cons e t ih =>
    rcases e with ⟨s, d⟩ | ⟨s⟩
    · have hreg : VA.regIds (VA.Ev.reg s d :: t) = s.id :: VA.regIds t := by
        simp [VA.regIds]
      rw [hreg] at h
      have hne : s.id ≠ id := fun heq => h (by rw [heq]; exact List.mem_cons_self _ _)
      have ht : id ∉ VA.regIds t := fun hmem => h (List.mem_cons_of_mem _ hmem)
      have hstep : VA.lastStatus (VA.Ev.reg s d :: t) id = VA.lastStatus t id := by
        unfold VA.lastStatus
        rw [List.foldl_cons]
        simp only [if_neg hne]
      rw [hstep]
      exact ih ht
    · have ht : id ∉ VA.regIds t := by
        have hreg : VA.regIds (VA.Ev.closeEv s :: t) = VA.regIds t := by
          simp [VA.regIds]
        rw [hreg] at h
        exact h
      have hstep : VA.lastStatus (VA.Ev.closeEv s :: t) id = VA.lastStatus t id := by
        unfold VA.lastStatus
        rw [List.foldl_cons]
        congr 1
        show (if s.id = id then none else none) = (none : Option String)
        rw [ite_self]
      rw [hstep]
      exact ih ht

lemma registry_membership (now : Nat) (evs : List VA.Ev) :
    (VA.regIds evs).Nodup → ∀ id : ClientId,
      (VA.memberOf (VA.runEvents now evs).androids id = true
          ↔ VA.lastStatus evs id = some "android")
    ∧ (VA.memberOf (VA.runEvents now evs).espCams id = true
          ↔ VA.lastStatus evs id = some "esp32-cam")
    ∧ (VA.memberOf (VA.runEvents now evs).espStandards id = true
          ↔ VA.lastStatus evs id = some "esp32-standard") := by
  induction evs using List.reverseRecOn with
  | nil =>
    intro _ id
    refine ⟨?_, ?_, ?_⟩ <;>
      simp [VA.runEvents, VA.initialState, VA.memberOf, VA.lastStatus]
  | append_singleton evs e ih =>
    intro hnd id
    rcases e with ⟨s, d⟩ | ⟨s⟩
    · rw [regIds_append_reg, List.nodup_append] at hnd
      obtain ⟨h1, _, hdisj⟩ := hnd
      have hfresh : s.id ∉ VA.regIds evs := fun hmem => hdisj hmem (by simp)
      have hnone := lastStatus_not_reg evs s.id hfresh
      have ihAll := ih h1
      have hbuck := handleRegister_buckets (VA.runEvents now evs) now s d
      have hrun : VA.runEvents now (evs ++ [VA.Ev.reg s d])
          = (VA.handleRegister (VA.runEvents now evs) now s d).1 := by
        rw [runEvents_append]
        rfl
      have hmA : VA.memberOf (VA.runEvents now evs).androids s.id = false := by
        cases hb : VA.memberOf (VA.runEvents now evs).androids s.id
        · rfl
        · exact absurd ((ihAll s.id).1.mp hb) (by simp [hnone])
      have hmC : VA.memberOf (VA.runEvents now evs).espCams s.id = false := by
        cases hb : VA.memberOf (VA.runEvents now evs).espCams s.id
        · rfl
        · exact absurd ((ihAll s.id).2.1.mp hb) (by simp [hnone])
      have hmS : VA.memberOf (VA.runEvents now evs).espStandards s.id = false := by
        cases hb : VA.memberOf (VA.runEvents now evs).espStandards s.id
        · rfl
        · exact absurd ((ihAll s.id).2.2.mp hb) (by simp [hnone])
      rw [hrun, lastStatus_append_reg]
      by_cases hid : s.id = id
      · subst hid
        rw [if_pos rfl]
        refine ⟨?_, ?_, ?_⟩
        · rw [hbuck.1]
          by_cases hd : d = "android"
          · subst hd
            rw [if_pos rfl, memberOf_mapSet, hmA]
            simp
          · rw [if_neg hd, hmA]
            simp [hd]
        · rw [hbuck.2.1]
          by_cases hd : d = "esp32-cam"
          · subst hd
            rw [if_pos rfl, memberOf_append_single, hmC]
            simp
          · rw [if_neg hd, hmC]
            simp [hd]
        · rw [hbuck.2.2]
          by_cases hd : d = "esp32-standard"
          · subst hd
            rw [if_pos rfl, memberOf_append_single, hmS]
            simp
          · rw [if_neg hd, hmS]
            simp [hd]
      · rw [if_neg hid]
        have hbeq : (s.id == id) = false := beq_eq_false_iff_ne.mpr hid
        refine ⟨?_, ?_, ?_⟩
        · rw [hbuck.1]
          split
          · rw [memberOf_mapSet, hbeq, Bool.or_false]
            exact (ihAll id).1
          · exact (ihAll id).1
        · rw [hbuck.2.1]
          split
          · rw [memberOf_append_single, hbeq, Bool.or_false]
            exact (ihAll id).2.1
          · exact (ihAll id).2.1
        · rw [hbuck.2.2]
          split
          · rw [memberOf_append_single, hbeq, Bool.or_false]
            exact (ihAll id).2.2
          · exact (ihAll id).2.2
    · rw [regIds_append_close] at hnd
      have ihAll := ih hnd
      have hbuck := handleClose_buckets (VA.runEvents now evs) s none
      have hrun : VA.runEvents now (evs ++ [VA.Ev.closeEv s])
          = (VA.handleClose (VA.runEvents now evs) s none).1 := by
        rw [runEvents_append]
        rfl
      rw [hrun, lastStatus_append_close]
      by_cases hid : s.id = id
      · subst hid
        rw [if_pos rfl]
        refine ⟨?_, ?_, ?_⟩
        · rw [hbuck.1, memberOf_filter_self]
          simp
        · rw [hbuck.2.1, memberOf_filter_self]
          simp
        · rw [hbuck.2.2, memberOf_filter_self]
          simp
      · rw [if_neg hid]
        have hne : id ≠ s.id := fun heq => hid heq.symm
        refine ⟨?_, ?_, ?_⟩
        · rw [hbuck.1, memberOf_filter_other _ _ _ hne]
          exact (ihAll id).1
        · rw [hbuck.2.1, memberOf_filter_other _ _ _ hne]
          exact (ihAll id).2.1
        · rw [hbuck.2.2, memberOf_filter_other _ _ _ hne]
          exact (ihAll id).2.2

/-- C9 amended, for serveur_fin variant A: after any sequence of
registration and close events in which every connection registers at
most once, a connection id is in a role bucket exactly when its last
event is a registration under that role with no later close — so the
three buckets coincide with the still-open registered connections of
each role; moreover the close handler removes the id from every
collection and doing so twice equals doing it once (removal is
idempotent). In part_002 the corresponding property fails (see the
counterexample). -/
theorem claim9_amended (now : Nat) (evs : List VA.Ev) (id : ClientId)
    (hnd : (VA.regIds evs).Nodup) :
    ((VA.memberOf (VA.runEvents now evs).androids id = true
        ↔ VA.lastStatus evs id = some "android")
      ∧ (VA.memberOf (VA.runEvents now evs).espCams id = true
        ↔ VA.lastStatus evs id = some "esp32-cam")
      ∧ (VA.memberOf (VA.runEvents now evs).espStandards id = true
        ↔ VA.lastStatus evs id = some "esp32-standard"))
  ∧ (∀ (st : VA.St) (sock : Socket) (ct : Option String),
      (VA.handleClose (VA.handleClose st sock ct).1 sock ct).1
        = (VA.handleClose st sock ct).1) :=
  ⟨registry_membership now evs hnd id, fun st sock ct => handleClose_idem st sock ct⟩

def claim9Events : List VA.Ev :=
  [VA.Ev.reg ⟨1, true⟩ "android", VA.Ev.reg ⟨2, true⟩ "esp32-cam",
   VA.Ev.closeEv ⟨2, true⟩]

theorem claim9_witness :
    (VA.regIds claim9Events).Nodup
  ∧ (VA.memberOf (VA.runEvents 0 claim9Events).androids 1 = true
      ↔ VA.lastStatus claim9Events 1 = some "android") :=
  ⟨by decide, (claim9_amended 0 claim9Events 1 (by decide)).1.1⟩

end Ferme
